import Mathlib

/-!
Shallow embedding of the browser-scanning runner
(`ZaectorCore/src/main/resources/python/runner.py`).

The script is a sequential orchestration: a parent-liveness watchdog thread,
a browser session resolver (attach over CDP or launch fresh), a scan executor
(inject script, call the scan entry point, print JSON to stdout), and a
lifecycle finalizer (leave an attached browser alone; poll or close a freshly
launched one).

Every effectful call (file read, CDP connect, browser launch, navigation,
page evaluation, JSON serialization, connectivity polling) is resolved by an
explicit environment `Env` acting as an oracle for the outside world, and the
program is interpreted as a pure function from `Env` and the request
arguments to a trace of events (stderr lines, stdout writes and flushes,
browser operations) together with a process outcome (normal exit, fatal
`sys.exit(1)`, or still inside the keep-open polling loop within the
modelled horizon).
-/

namespace Runner

/-- JSON-like field values of an element record (the records returned by the
injected scanner script are opaque to the runner; it only serializes them). -/
inductive JVal where
  | null : JVal
  | jbool (b : Bool) : JVal
  | jint (n : Int) : JVal
  | jstr (s : String) : JVal
deriving DecidableEq

/-- One element record of the scan result: an opaque object with named fields. -/
structure ElementRecord where
  fields : List (String × JVal)
deriving DecidableEq

/-- JSON string escaping for the serializer. -/
def escapeChar (c : Char) : String :=
  if c = '\\' then "\\\\"
  else if c = '"' then "\\\""
  else if c = '\n' then "\\n"
  else String.singleton c

/-- Escape every character of a string for JSON output. -/
def escape (s : String) : String :=
  String.join (s.data.map escapeChar)

/-- A JSON string literal. -/
def jstrLit (s : String) : String :=
  "\"" ++ escape s ++ "\""

/-- Serialize one field value. -/
def dumpJVal : JVal → String
  | .null => "null"
  | .jbool b => if b then "true" else "false"
  | .jint n => toString n
  | .jstr s => jstrLit s

/-- Serialize one `key: value` line of a record at indent depth 2 (two levels
of two spaces, matching `json.dumps(elements, indent=2)` for a list of
objects). -/
def dumpField (kv : String × JVal) : String :=
  "    " ++ jstrLit kv.1 ++ ": " ++ dumpJVal kv.2

/-- Serialize one element record at indent depth 1. -/
def dumpRecord (r : ElementRecord) : String :=
  match r.fields with
  | [] => "  \x7b\x7d"
  | fs => "  \x7b\n" ++ String.intercalate ",\n" (fs.map dumpField) ++ "\n  \x7d"

/-- Pretty-printed JSON serialization of the scan result, the model of
`json.dumps(elements, indent=2)`: a JSON array of the element records. -/
def dumps (elems : List ElementRecord) : String :=
  match elems with
  | [] => "[]"
  | es => "[\n" ++ String.intercalate ",\n" (es.map dumpRecord) ++ "\n]"

/-- Python renders booleans as `True` / `False` inside f-strings. -/
def pyBool (b : Bool) : String :=
  if b then "True" else "False"

/-- The diagnostic (stderr) messages of the runner, one constructor per
`print(..., file=sys.stderr)` statement, carrying the interpolated parts. -/
inductive Msg where
  | startingScan (url headless keepOpen : String) : Msg
  | attemptingConnect : Msg
  | successConnected : Msg
  | usingExistingPage (url : String) : Msg
  | createdNewPage : Msg
  | noExistingBrowser (e : String) : Msg
  | browserLaunchedOk : Msg
  | navigating (url : String) : Msg
  | pageLoaded : Msg
  | pageLoadTimeout : Msg
  | startingDomScan : Msg
  | scanComplete (n : Nat) : Msg
  | scanFailed (e : String) : Msg
  | lifecycle (isExisting keepOpen : Bool) : Msg
  | leavingOpen : Msg
  | keepingOpen : Msg
  | stayOpen : Msg
  | closedByUser : Msg
  | interrupted : Msg
  | monitoringError (e : String) : Msg
  | keepOpenDisabled : Msg
  | browserClosed : Msg
  | criticalError (e : String) : Msg
deriving DecidableEq

/-- The exact text each message prints, as in the source f-strings. -/
def render : Msg → String
  | .startingScan u h k =>
      "[SCANNER] Starting scan - URL: " ++ u ++ ", Headless: " ++ h ++ ", Keep Open: " ++ k
  | .attemptingConnect =>
      "[SCANNER] Attempting to connect to existing browser on port 9222..."
  | .successConnected => "[SCANNER] SUCCESS - Connected to existing browser"
  | .usingExistingPage u => "[SCANNER] Using existing page: " ++ u
  | .createdNewPage => "[SCANNER] Created new page in existing browser"
  | .noExistingBrowser e =>
      "[SCANNER] No existing browser found (" ++ e ++ "), launching new one..."
  | .browserLaunchedOk => "[SCANNER] Browser launched successfully"
  | .navigating u => "[SCANNER] Navigating to " ++ u ++ "..."
  | .pageLoaded => "[SCANNER] Page loaded"
  | .pageLoadTimeout => "[SCANNER] Page load timeout (continuing anyway)"
  | .startingDomScan => "[SCANNER] Starting DOM scan..."
  | .scanComplete n => "[SCANNER] Scan complete - found " ++ toString n ++ " elements"
  | .scanFailed e => "[SCANNER] ERROR - Scan failed: " ++ e
  | .lifecycle ex ko =>
      "[SCANNER] Browser lifecycle - is_existing: " ++ pyBool ex ++ ", keep_open: " ++ pyBool ko
  | .leavingOpen =>
      "[SCANNER] Connected to existing browser - leaving it open (not calling close())"
  | .keepingOpen => "[SCANNER] Browser launched. Keeping open for CDP access..."
  | .stayOpen => "[SCANNER] Browser will stay open until manually closed by user"
  | .closedByUser => "[SCANNER] Browser was closed by user"
  | .interrupted => "[SCANNER] Scan interrupted by user"
  | .monitoringError e => "[SCANNER] Browser monitoring error: " ++ e
  | .keepOpenDisabled => "[SCANNER] Keep Open disabled - closing browser..."
  | .browserClosed => "[SCANNER] Browser closed"
  | .criticalError e => "CRITICAL ERROR: " ++ e

/-- Which page the scan runs on: the first page of the first context of an
attached browser, a page newly created in the attached browser, or the page
newly created in a freshly launched browser. -/
inductive PageRef where
  | existingFirst (url : String) : PageRef
  | newInExisting : PageRef
  | newInLaunched : PageRef
deriving DecidableEq

/-- Observable events of one run: diagnostic lines to stderr, writes and
flushes of the primary output channel (stdout), and browser operations. -/
inductive Ev where
  | err (m : Msg) : Ev
  | out (s : String) : Ev
  | flush : Ev
  | launch (headless : Bool) : Ev
  | newPage (p : PageRef) : Ev
  | goto (url : String) : Ev
  | evalScript (p : PageRef) : Ev
  | evalScan (p : PageRef) : Ev
  | close : Ev
  | sleep : Ev
deriving DecidableEq

/-- What one iteration of the keep-open loop observes: `browser.is_connected()`
returns true (so the loop sleeps one second and iterates), returns false,
a `KeyboardInterrupt` arrives, or the monitoring raises some other error. -/
inductive PollStep where
  | connected : PollStep
  | disconnected : PollStep
  | interrupt : PollStep
  | errStep (e : String) : PollStep
deriving DecidableEq

/-- A page of an existing browsing context, seen over CDP. -/
structure PageInfo where
  url : String
deriving DecidableEq

/-- A browsing context of an attached browser. -/
structure BrowserContext where
  pages : List PageInfo
deriving DecidableEq

/-- The contexts of the browser found on the debug port. -/
structure BrowserSnapshot where
  contexts : List BrowserContext
deriving DecidableEq

deriving instance DecidableEq for Except

/-- The environment oracle: the outcome of every effectful call the script
makes, in program order.  `Except.error e` / `some e` means the call raises
an exception whose string form is `e`. -/
structure Env where
  /-- outcome of `open(js_file_path).read()` -/
  readScript : Except String String
  /-- outcome of `p.chromium.connect_over_cdp(...)` -/
  connect : Except String BrowserSnapshot
  /-- outcome of `p.chromium.launch(...)` on the fresh path -/
  launchRes : Except String Unit
  /-- whether `page.goto(target_url)` raises -/
  gotoErr : Option String
  /-- whether `page.wait_for_load_state("networkidle", timeout=5000)` raises
  (caught by the bare `except` and logged as a timeout) -/
  waitErr : Option String
  /-- whether `page.evaluate(js_scanner_code)` raises -/
  injectErr : Option String
  /-- outcome of `page.evaluate("window.__PLAYWRIGHT_SCANNER__.scan()")` -/
  scanResult : Except String (List ElementRecord)
  /-- whether `print(json.dumps(elements, indent=2))` + flush succeeds -/
  dumpsOk : Bool
  /-- what each successive iteration of the keep-open loop observes -/
  pollSteps : List PollStep
deriving DecidableEq

/-- The four arguments of `run_scan(js_file_path, target_url, headless_mode,
keep_open)`. -/
structure Request where
  jsFilePath : String
  targetUrl : String
  headlessMode : String
  keepOpen : String
deriving DecidableEq

/-- How the main flow ends: `run_scan` returns (process then exits 0),
`sys.exit(1)` from the top-level handler, or the keep-open loop is still
running after every modelled poll step observed the browser connected. -/
inductive Outcome where
  | normal : Outcome
  | fatal : Outcome
  | polling : Outcome
deriving DecidableEq

/-- Exit status of the process for each outcome (`none`: it has not exited). -/
def exitCode : Outcome → Option Nat
  | .normal => some 0
  | .fatal => some 1
  | .polling => none

/-- Python's `str.lower()` on one character (the flag strings are ASCII). -/
def lowerChar (c : Char) : Char :=
  if 65 ≤ c.toNat ∧ c.toNat ≤ 90 then Char.ofNat (c.toNat + 32) else c

/-- Python's `str.lower()` on a string. -/
def strLower (s : String) : String :=
  String.mk (s.data.map lowerChar)

/-- `headless_mode.lower() == 'true'` / `keep_open.lower() == 'true'`. -/
def parseBool (s : String) : Bool :=
  strLower s == "true"

/-- Page selection after a successful CDP attach:
`if len(browser.contexts) > 0 and len(browser.contexts[0].pages) > 0` reuse
`browser.contexts[0].pages[0]`, else `browser.new_page()`. -/
def choosePage (b : BrowserSnapshot) : List Ev × PageRef :=
  match b.contexts with
  | c :: _ =>
    match c.pages with
    | pg :: _ => ([Ev.err (.usingExistingPage pg.url)], .existingFirst pg.url)
    | [] => ([Ev.newPage .newInExisting, Ev.err .createdNewPage], .newInExisting)
  | [] => ([Ev.newPage .newInExisting, Ev.err .createdNewPage], .newInExisting)

/-- Phase 1 of `run_scan`: find or start a browser.  Returns the events of
the phase and either the resolved page with the `is_existing_browser` flag,
or the exception that escapes the phase (an error raised inside the
`except`-branch — launch or navigation — propagates to the top level). -/
def phase1 (env : Env) (req : Request) : List Ev × Except String (PageRef × Bool) :=
  match env.connect with
  | .ok b =>
    let cp := choosePage b
    (Ev.err .successConnected :: cp.1, .ok (cp.2, true))
  | .error ce =>
    let pre := [Ev.err (.noExistingBrowser ce)]
    match env.launchRes with
    | .error le => (pre, .error le)
    | .ok _ =>
      let isHeadless := parseBool req.headlessMode
      let evs := pre ++ [Ev.launch isHeadless, Ev.newPage .newInLaunched,
        Ev.err .browserLaunchedOk]
      if req.targetUrl = "" then
        (evs, .ok (.newInLaunched, false))
      else
        let evs := evs ++ [Ev.err (.navigating req.targetUrl), Ev.goto req.targetUrl]
        match env.gotoErr with
        | some ge => (evs, .error ge)
        | none =>
          match env.waitErr with
          | some _ => (evs ++ [Ev.err .pageLoadTimeout], .ok (.newInLaunched, false))
          | none => (evs ++ [Ev.err .pageLoaded], .ok (.newInLaunched, false))

/-- Phase 2 of `run_scan`: inject the scanner script, call the entry point,
and print the JSON.  Any evaluation error is caught and logged; any
serialization/print error is caught and silently ignored. -/
def phase2 (env : Env) (p : PageRef) : List Ev :=
  Ev.err .startingDomScan ::
  Ev.evalScript p ::
  match env.injectErr with
  | some e => [Ev.err (.scanFailed e)]
  | none =>
    Ev.evalScan p ::
    match env.scanResult with
    | .error e => [Ev.err (.scanFailed e)]
    | .ok elems =>
      Ev.err (.scanComplete elems.length) ::
      if env.dumpsOk then [Ev.out (dumps elems), Ev.flush] else []

/-- The keep-open loop `while browser.is_connected(): time.sleep(1)` together
with its `except KeyboardInterrupt` / `except Exception` handlers, driven by
the observed poll steps.  Returns the events and whether the loop region was
left (`false`: every modelled step observed the browser connected, the loop
is still running). -/
def runPoll : List PollStep → List Ev × Bool
  | [] => ([], false)
  | .connected :: rest =>
    let r := runPoll rest
    (Ev.sleep :: r.1, r.2)
  | .disconnected :: _ => ([Ev.err .closedByUser], true)
  | .interrupt :: _ => ([Ev.err .interrupted], true)
  | .errStep e :: _ => ([Ev.err (.monitoringError e)], true)

/-- Phase 3 of `run_scan`: the lifecycle finalizer over
`(is_existing_browser, should_keep_open)`. -/
def phase3 (env : Env) (req : Request) (isExisting : Bool) : List Ev × Outcome :=
  let sko := parseBool req.keepOpen
  let hdr := Ev.err (.lifecycle isExisting sko)
  if isExisting then
    ([hdr, Ev.err .leavingOpen], .normal)
  else if sko then
    let r := runPoll env.pollSteps
    (hdr :: Ev.err .keepingOpen :: Ev.err .stayOpen :: r.1,
     if r.2 then .normal else .polling)
  else
    ([hdr, Ev.err .keepOpenDisabled, Ev.close, Ev.err .browserClosed], .normal)

/-- The trace and outcome of one run. -/
structure Result where
  events : List Ev
  outcome : Outcome
deriving DecidableEq

/-- The whole `run_scan` function: the opening banner, the `try` body
(script read, phase 1–3), and the top-level `except` that logs
`CRITICAL ERROR: ...` and calls `sys.exit(1)`. -/
def run_scan (env : Env) (req : Request) : Result :=
  let start := Ev.err (.startingScan req.targetUrl req.headlessMode req.keepOpen)
  match env.readScript with
  | .error e => ⟨[start, Ev.err (.criticalError e)], .fatal⟩
  | .ok _ =>
    let attempt := Ev.err .attemptingConnect
    let p1 := phase1 env req
    match p1.2 with
    | .error e =>
      ⟨start :: attempt :: p1.1 ++ [Ev.err (.criticalError e)], .fatal⟩
    | .ok pe =>
      ⟨start :: attempt :: p1.1 ++ phase2 env pe.1 ++ (phase3 env req pe.2).1,
       (phase3 env req pe.2).2⟩

/-- What the watchdog's blocking `sys.stdin.read()` does: return (end of
stream reached) or raise. -/
inductive ReadOutcome where
  | eof : ReadOutcome
  | raised (msg : String) : ReadOutcome
deriving DecidableEq

/-- A hard process termination via `os._exit`: the exit status and the fact
that it bypasses normal cleanup (no handlers, no context-manager exits). -/
structure HardExit where
  code : Nat
  skipsCleanup : Bool
deriving DecidableEq

/-- The parent-liveness watchdog thread body: `sys.stdin.read()` then
`os._exit(0)`; on any exception, `os._exit(1)`. -/
def parent_watchdog : ReadOutcome → HardExit
  | .eof => ⟨0, true⟩
  | .raised _ => ⟨1, true⟩

/-- Events on the primary output channel (stdout writes and flushes). -/
def isStdoutEv : Ev → Bool
  | .out _ => true
  | .flush => true
  | _ => false

/-- Events on the diagnostic channel (stderr lines). -/
def isErrEv : Ev → Bool
  | .err _ => true
  | _ => false

/-- The stdout projection of a run. -/
def stdoutTrace (r : Result) : List Ev :=
  r.events.filter isStdoutEv

/-- The stderr projection of a run. -/
def stderrTrace (r : Result) : List Ev :=
  r.events.filter isErrEv

/-- Baseline concrete environment for witnesses: no browser on the port, a
fresh launch succeeds, empty target URL, scan returns no elements. -/
def env0 : Env :=
  { readScript := .ok "scanner code"
    connect := .error "connect ECONNREFUSED"
    launchRes := .ok ()
    gotoErr := none
    waitErr := none
    injectErr := none
    scanResult := .ok []
    dumpsOk := true
    pollSteps := [] }

/-- Baseline concrete request for witnesses. -/
def req0 : Request :=
  { jsFilePath := "scanner.js"
    targetUrl := ""
    headlessMode := "false"
    keepOpen := "false" }

/-- A browser snapshot with one context holding one page. -/
def snap1 : BrowserSnapshot :=
  { contexts := [{ pages := [{ url := "https://example.com" }] }] }

/-- A browser snapshot with no contexts. -/
def snap0 : BrowserSnapshot :=
  { contexts := [] }

/-- Whether a poll step observed the browser still connected. -/
def isConn : PollStep → Bool
  | .connected => true
  | _ => false

theorem isStdoutEv_err (m : Msg) : isStdoutEv (Ev.err m) = false := rfl

theorem stdout_filter_phase1 (env : Env) (req : Request) :
    List.filter isStdoutEv (phase1 env req).1 = [] := by
  unfold phase1 choosePage
  cases hc : env.connect with
  | ok b =>
    obtain ⟨ctxs⟩ := b
    cases ctxs with
    | nil => simp [isStdoutEv]
    | cons c cs =>
      cases hp : c.pages with
      | nil => simp [hp, isStdoutEv]
      | cons pg pgs => simp [hp, isStdoutEv]
  | error ce =>
    cases hl : env.launchRes with
    | error le => simp [isStdoutEv]
    | ok u =>
      by_cases h : req.targetUrl = ""
      · simp [h, isStdoutEv]
      · cases hg : env.gotoErr with
        | some ge => simp [h, isStdoutEv]
        | none =>
          cases hw : env.waitErr with
          | some we => simp [h, isStdoutEv]
          | none => simp [h, isStdoutEv]

theorem stdout_filter_runPoll (steps : List PollStep) :
    List.filter isStdoutEv (runPoll steps).1 = [] := by
  induction steps with
  | nil => rfl
  | cons s rest ih =>
    cases s with
    | connected => simpa [runPoll, isStdoutEv] using ih
    | disconnected => simp [runPoll, isStdoutEv]
    | interrupt => simp [runPoll, isStdoutEv]
    | errStep e => simp [runPoll, isStdoutEv]

theorem stdout_filter_phase3 (env : Env) (req : Request) (ex : Bool) :
    List.filter isStdoutEv (phase3 env req ex).1 = [] := by
  unfold phase3
  cases ex with
  | true => simp [isStdoutEv]
  | false =>
    by_cases h : parseBool req.keepOpen
    · simp [h, isStdoutEv, stdout_filter_runPoll]
    · simp [h, isStdoutEv]

theorem close_not_in_phase2 (env : Env) (p : PageRef) :
    Ev.close ∉ phase2 env p := by
  unfold phase2
  cases hi : env.injectErr with
  | some e => simp
  | none =>
    cases hs : env.scanResult with
    | error e => simp
    | ok elems =>
      cases hd : env.dumpsOk with
      | true => simp
      | false => simp

theorem close_not_in_runPoll (steps : List PollStep) :
    Ev.close ∉ (runPoll steps).1 := by
  induction steps with
  | nil => simp [runPoll]
  | cons s rest ih =>
    cases s with
    | connected => simpa [runPoll] using ih
    | disconnected => simp [runPoll]
    | interrupt => simp [runPoll]
    | errStep e => simp [runPoll]

theorem phase1_attach_ok (env : Env) (req : Request) (b : BrowserSnapshot)
    (hc : env.connect = .ok b) :
    (phase1 env req).2 = .ok ((choosePage b).2, true) := by
  unfold phase1
  rw [hc]

theorem phase1_fresh_ok (env : Env) (req : Request) (ce : String)
    (hc : env.connect = .error ce) (hl : env.launchRes = .ok ())
    (hg : req.targetUrl = "" ∨ env.gotoErr = none) :
    (phase1 env req).2 = .ok (.newInLaunched, false) := by
  unfold phase1
  rw [hc, hl]
  rcases hg with hg | hg
  · simp [hg]
  · by_cases h : req.targetUrl = ""
    · simp [h]
    · cases hw : env.waitErr with
      | some we => simp [h, hg, hw]
      | none => simp [h, hg, hw]

theorem evalScript_mem_phase2 (env : Env) (p : PageRef) :
    Ev.evalScript p ∈ phase2 env p := by
  unfold phase2
  simp

theorem newPage_not_in_phase2 (env : Env) (p q : PageRef) :
    Ev.newPage q ∉ phase2 env p := by
  unfold phase2
  cases hi : env.injectErr with
  | some e => simp
  | none =>
    cases hs : env.scanResult with
    | error e => simp
    | ok elems =>
      cases hd : env.dumpsOk with
      | true => simp
      | false => simp

theorem sleep_not_in_phase1 (env : Env) (req : Request) :
    Ev.sleep ∉ (phase1 env req).1 := by
  unfold phase1 choosePage
  cases hc : env.connect with
  | ok b =>
    obtain ⟨ctxs⟩ := b
    cases ctxs with
    | nil => simp
    | cons c cs =>
      cases hp : c.pages with
      | nil => simp [hp]
      | cons pg pgs => simp [hp]
  | error ce =>
    cases hl : env.launchRes with
    | error le => simp
    | ok u =>
      by_cases h : req.targetUrl = ""
      · simp [h]
      · cases hg : env.gotoErr with
        | some ge => simp [h]
        | none =>
          cases hw : env.waitErr with
          | some we => simp [h]
          | none => simp [h]

theorem sleep_not_in_phase2 (env : Env) (p : PageRef) :
    Ev.sleep ∉ phase2 env p := by
  unfold phase2
  cases hi : env.injectErr with
  | some e => simp
  | none =>
    cases hs : env.scanResult with
    | error e => simp
    | ok elems =>
      cases hd : env.dumpsOk with
      | true => simp
      | false => simp

theorem phase3_outcome_ne_fatal (env : Env) (req : Request) (ex : Bool) :
    (phase3 env req ex).2 ≠ .fatal := by
  unfold phase3
  cases ex with
  | true => simp
  | false =>
    by_cases hk : parseBool req.keepOpen
    · cases hrp : (runPoll env.pollSteps).2 <;> simp [hk, hrp]
    · simp [hk]

theorem lifecycle_mem_phase3 (env : Env) (req : Request) (ex : Bool) :
    Ev.err (.lifecycle ex (parseBool req.keepOpen)) ∈ (phase3 env req ex).1 := by
  unfold phase3
  cases ex with
  | true => simp
  | false =>
    by_cases hk : parseBool req.keepOpen
    · simp [hk]
    · simp [hk]

/-- C1.  Whenever the CDP attach succeeded (`is_existing_browser = True`),
no `browser.close()` call ever appears in the run's trace, whatever the
keep-open flag and the rest of the environment are. -/
theorem c1_attached_never_closed (env : Env) (req : Request) (b : BrowserSnapshot)
    (hc : env.connect = .ok b) :
    Ev.close ∉ (run_scan env req).events := by
  have h1 : (phase1 env req).2 = .ok ((choosePage b).2, true) := by
    unfold phase1
    rw [hc]
  have h1e : Ev.close ∉ (phase1 env req).1 := by
    unfold phase1 choosePage
    rw [hc]
    obtain ⟨ctxs⟩ := b
    cases ctxs with
    | nil => simp
    | cons c cs =>
      cases hp : c.pages with
      | nil => simp [hp]
      | cons pg pgs => simp [hp]
  have h2 := close_not_in_phase2 env (choosePage b).2
  have h3 : Ev.close ∉ (phase3 env req true).1 := by
    simp [phase3]
  cases hr : env.readScript with
  | error e => simp [run_scan, hr]
  | ok js =>
    simp only [run_scan, hr, h1]
    simp [h1e, h2, h3]

/-- C4.  The parent watchdog has exactly two exit behaviours: when the
blocking stdin read returns (end of stream), it hard-exits the whole process
with status 0, bypassing cleanup; when the read raises any error, it
hard-exits with the non-zero status 1. -/
theorem c4_watchdog_exits (r : ReadOutcome) :
    (r = .eof → parent_watchdog r = ⟨0, true⟩) ∧
    (∀ m, r = .raised m → (parent_watchdog r).code = 1 ∧
      (parent_watchdog r).code ≠ 0 ∧ (parent_watchdog r).skipsCleanup = true) := by
  constructor
  · rintro rfl
    rfl
  · rintro m rfl
    exact ⟨rfl, by simp [parent_watchdog], rfl⟩

/-- Witness for C4 at both concrete read outcomes. -/
theorem c4_watchdog_exits_witness :
    parent_watchdog .eof = ⟨0, true⟩ ∧
    (parent_watchdog (.raised "Bad file descriptor")).code = 1 := by
  refine ⟨(c4_watchdog_exits .eof).1 rfl, ?_⟩
  exact ((c4_watchdog_exits (.raised "Bad file descriptor")).2 "Bad file descriptor" rfl).1

/-- Witness for C1: attached to a browser with one page, keep-open false,
still no close call. -/
theorem c1_attached_never_closed_witness :
    ({ env0 with connect := .ok snap1 } : Env).connect = .ok snap1 ∧
    Ev.close ∉ (run_scan { env0 with connect := .ok snap1 } req0).events :=
  ⟨rfl, c1_attached_never_closed { env0 with connect := .ok snap1 } req0 snap1 rfl⟩

/-- C5.  If reading the scanner script file raises, the run is fatal: exit
status 1 (non-zero), a `CRITICAL ERROR: ...`-prefixed line on the diagnostic
channel, and nothing at all on the primary output channel. -/
theorem c5_unreadable_script_fatal (env : Env) (req : Request) (msg : String)
    (h : env.readScript = .error msg) :
    (run_scan env req).outcome = .fatal ∧
    exitCode (run_scan env req).outcome = some 1 ∧
    Ev.err (.criticalError msg) ∈ (run_scan env req).events ∧
    render (.criticalError msg) = "CRITICAL ERROR: " ++ msg ∧
    stdoutTrace (run_scan env req) = [] := by
  unfold run_scan stdoutTrace
  rw [h]
  refine ⟨rfl, rfl, by simp, rfl, by simp [isStdoutEv]⟩

/-- Witness for C5: a concrete unreadable script file. -/
theorem c5_unreadable_script_fatal_witness :
    ({ env0 with readScript := .error "No such file or directory" } : Env).readScript
        = .error "No such file or directory" ∧
    (run_scan { env0 with readScript := .error "No such file or directory" } req0).outcome
        = .fatal :=
  ⟨rfl,
   (c5_unreadable_script_fatal { env0 with readScript := .error "No such file or directory" }
     req0 "No such file or directory" rfl).1⟩

/-- C2.  Fresh launch (connect failed, launch succeeded, navigation — if any —
did not raise) with a keep-open flag that parses to false: the finalizer
issues `browser.close()` and the run ends in a normal process exit. -/
theorem c2_fresh_noKeep_closes (env : Env) (req : Request) (js ce : String)
    (hr : env.readScript = .ok js) (hc : env.connect = .error ce)
    (hl : env.launchRes = .ok ()) (hg : req.targetUrl = "" ∨ env.gotoErr = none)
    (hk : parseBool req.keepOpen = false) :
    Ev.close ∈ (run_scan env req).events ∧ (run_scan env req).outcome = .normal := by
  have h1 := phase1_fresh_ok env req ce hc hl hg
  have h3 : phase3 env req false =
      ([Ev.err (.lifecycle false false), Ev.err .keepOpenDisabled, Ev.close,
        Ev.err .browserClosed], .normal) := by
    simp [phase3, hk]
  constructor
  · simp only [run_scan, hr, h1]
    simp [h3]
  · simp only [run_scan, hr, h1]
    simp [h3]

/-- Witness for C2: fresh launch, empty URL, keep-open "false". -/
theorem c2_fresh_noKeep_closes_witness :
    parseBool req0.keepOpen = false ∧
    Ev.close ∈ (run_scan env0 req0).events ∧ (run_scan env0 req0).outcome = .normal :=
  ⟨by decide,
   c2_fresh_noKeep_closes env0 req0 "scanner code" "connect ECONNREFUSED"
     rfl rfl rfl (Or.inl rfl) (by decide)⟩

/-- C8.  On a successful attach: if the browser has at least one context and
that context has at least one page, the scan runs on that first page and no
new page is ever created; if there are no contexts, or the first context has
no pages, a new page is created in the attached browser and the scan runs on
it. -/
theorem c8_attach_page_choice (env : Env) (req : Request) (b : BrowserSnapshot)
    (js : String) (hr : env.readScript = .ok js) (hc : env.connect = .ok b) :
    (∀ c cs pg pgs, b.contexts = c :: cs → c.pages = pg :: pgs →
      Ev.evalScript (.existingFirst pg.url) ∈ (run_scan env req).events ∧
      ∀ q, Ev.newPage q ∉ (run_scan env req).events) ∧
    (∀ c cs, b.contexts = c :: cs → c.pages = [] →
      Ev.newPage .newInExisting ∈ (run_scan env req).events ∧
      Ev.evalScript .newInExisting ∈ (run_scan env req).events) ∧
    (b.contexts = [] →
      Ev.newPage .newInExisting ∈ (run_scan env req).events ∧
      Ev.evalScript .newInExisting ∈ (run_scan env req).events) := by
  have h1 := phase1_attach_ok env req b hc
  have hph1 : (phase1 env req).1 = Ev.err .successConnected :: (choosePage b).1 := by
    unfold phase1
    rw [hc]
  have hnp3 : ∀ q, Ev.newPage q ∉ (phase3 env req true).1 := by
    intro q
    simp [phase3]
  refine ⟨?_, ?_, ?_⟩
  · intro c cs pg pgs hctx hpg
    have hcp : choosePage b = ([Ev.err (.usingExistingPage pg.url)], .existingFirst pg.url) := by
      unfold choosePage
      rw [hctx]
      simp [hpg]
    constructor
    · simp only [run_scan, hr, h1, hcp]
      have := evalScript_mem_phase2 env (PageRef.existingFirst pg.url)
      simp [hph1, hcp, this]
    · intro q
      simp only [run_scan, hr, h1, hcp]
      simp [hph1, hcp, newPage_not_in_phase2 env _ q, hnp3 q]
  · intro c cs hctx hpg
    have hcp : choosePage b =
        ([Ev.newPage .newInExisting, Ev.err .createdNewPage], .newInExisting) := by
      unfold choosePage
      rw [hctx]
      simp [hpg]
    constructor
    · simp only [run_scan, hr, h1, hcp]
      simp [hph1, hcp]
    · simp only [run_scan, hr, h1, hcp]
      have := evalScript_mem_phase2 env PageRef.newInExisting
      simp [hph1, hcp, this]
  · intro hctx
    have hcp : choosePage b =
        ([Ev.newPage .newInExisting, Ev.err .createdNewPage], .newInExisting) := by
      unfold choosePage
      rw [hctx]
    constructor
    · simp only [run_scan, hr, h1, hcp]
      simp [hph1, hcp]
    · simp only [run_scan, hr, h1, hcp]
      have := evalScript_mem_phase2 env PageRef.newInExisting
      simp [hph1, hcp, this]

/-- Witness for C8: both the reuse case (one context with one page) and the
create case (zero contexts), at concrete environments. -/
theorem c8_attach_page_choice_witness :
    Ev.evalScript (.existingFirst "https://example.com") ∈
      (run_scan { env0 with connect := .ok snap1 } req0).events ∧
    Ev.newPage .newInExisting ∈
      (run_scan { env0 with connect := .ok snap0 } req0).events :=
  ⟨((c8_attach_page_choice { env0 with connect := .ok snap1 } req0 snap1
      "scanner code" rfl rfl).1
      { pages := [{ url := "https://example.com" }] } [] { url := "https://example.com" } []
      rfl rfl).1,
   ((c8_attach_page_choice { env0 with connect := .ok snap0 } req0 snap0
      "scanner code" rfl rfl).2.2 rfl).1⟩

/-- C10.  Fresh launch with a non-empty target URL whose `page.goto` raises:
the exception escapes to the top-level handler — exit status 1 with a
critical-error line — and the scan never runs, no page is ever evaluated,
nothing reaches stdout, and the finalizer is skipped entirely (the fresh
browser is neither closed nor polled, and no lifecycle line is logged). -/
theorem c10_goto_error_fatal (env : Env) (req : Request) (js ce ge : String)
    (hr : env.readScript = .ok js) (hc : env.connect = .error ce)
    (hl : env.launchRes = .ok ()) (hu : req.targetUrl ≠ "")
    (hg : env.gotoErr = some ge) :
    (run_scan env req).outcome = .fatal ∧
    exitCode (run_scan env req).outcome = some 1 ∧
    Ev.err (.criticalError ge) ∈ (run_scan env req).events ∧
    Ev.close ∉ (run_scan env req).events ∧
    Ev.sleep ∉ (run_scan env req).events ∧
    (∀ q, Ev.evalScript q ∉ (run_scan env req).events) ∧
    stdoutTrace (run_scan env req) = [] ∧
    (∀ a k, Ev.err (.lifecycle a k) ∉ (run_scan env req).events) := by
  have hph : phase1 env req =
      ([Ev.err (.noExistingBrowser ce), Ev.launch (parseBool req.headlessMode),
        Ev.newPage .newInLaunched, Ev.err .browserLaunchedOk,
        Ev.err (.navigating req.targetUrl), Ev.goto req.targetUrl], .error ge) := by
    unfold phase1
    rw [hc, hl]
    simp [hu, hg]
  refine ⟨?_, ?_, ?_, ?_, ?_, ?_, ?_, ?_⟩
  · simp [run_scan, hr, hph]
  · simp [run_scan, hr, hph, exitCode]
  · simp [run_scan, hr, hph]
  · simp [run_scan, hr, hph]
  · simp [run_scan, hr, hph]
  · intro q
    simp [run_scan, hr, hph]
  · simp [stdoutTrace, run_scan, hr, hph, isStdoutEv]
  · intro a k
    simp [run_scan, hr, hph]

/-- Witness for C10: navigation to a concrete URL raises. -/
theorem c10_goto_error_fatal_witness :
    (run_scan
      { env0 with gotoErr := some "net::ERR_NAME_NOT_RESOLVED" }
      { req0 with targetUrl := "https://bad.invalid" }).outcome = .fatal :=
  (c10_goto_error_fatal
    { env0 with gotoErr := some "net::ERR_NAME_NOT_RESOLVED" }
    { req0 with targetUrl := "https://bad.invalid" }
    "scanner code" "connect ECONNREFUSED" "net::ERR_NAME_NOT_RESOLVED"
    rfl rfl rfl (by simp) rfl).1

theorem run_scan_resolved (env : Env) (req : Request) (p : PageRef) (ex : Bool)
    (js : String) (hr : env.readScript = .ok js)
    (h1 : (phase1 env req).2 = .ok (p, ex)) :
    run_scan env req =
      ⟨Ev.err (.startingScan req.targetUrl req.headlessMode req.keepOpen) ::
        Ev.err .attemptingConnect ::
        ((phase1 env req).1 ++ phase2 env p ++ (phase3 env req ex).1),
       (phase3 env req ex).2⟩ := by
  simp only [run_scan, hr, h1]
  simp [List.cons_append]

theorem runPoll_count_sleep (steps : List PollStep) :
    ((runPoll steps).1).count Ev.sleep = (steps.takeWhile isConn).length := by
  induction steps with
  | nil => rfl
  | cons s rest ih =>
    cases s with
    | connected => simp [runPoll, List.takeWhile_cons, isConn, List.count_cons, ih]
    | disconnected => simp [runPoll, List.takeWhile_cons, isConn, List.count_cons]
    | interrupt => simp [runPoll, List.takeWhile_cons, isConn, List.count_cons]
    | errStep e => simp [runPoll, List.takeWhile_cons, isConn, List.count_cons]

theorem runPoll_still_iff (steps : List PollStep) :
    (runPoll steps).2 = false ↔ ∀ s ∈ steps, s = PollStep.connected := by
  induction steps with
  | nil => simp [runPoll]
  | cons s rest ih =>
    cases s with
    | connected => simp [runPoll, ih]
    | disconnected => simp [runPoll]
    | interrupt => simp [runPoll]
    | errStep e => simp [runPoll]

/-- Counterexample to C3 as stated: freshly launched browser, keep-open
parses to true, and the single poll iteration raises a monitoring error
(neither a disconnect report nor a signal) — yet the loop is left and the
process exits normally. -/
theorem c3_counterexample :
    (run_scan { env0 with pollSteps := [.errStep "boom"] }
        { req0 with keepOpen := "true" }).outcome = .normal ∧
    Ev.err (.monitoringError "boom") ∈
      (run_scan { env0 with pollSteps := [.errStep "boom"] }
        { req0 with keepOpen := "true" }).events ∧
    Ev.err .closedByUser ∉
      (run_scan { env0 with pollSteps := [.errStep "boom"] }
        { req0 with keepOpen := "true" }).events ∧
    Ev.err .interrupted ∉
      (run_scan { env0 with pollSteps := [.errStep "boom"] }
        { req0 with keepOpen := "true" }).events ∧
    PollStep.disconnected ∉ ({ env0 with pollSteps := [.errStep "boom"] } : Env).pollSteps ∧
    PollStep.interrupt ∉ ({ env0 with pollSteps := [.errStep "boom"] } : Env).pollSteps := by
  decide

/-- C3 (amended).  Fresh launch with keep-open parsing to true: the main
flow sleeps once per connectivity poll that reports connected, it has not
exited as long as every poll reports connected, and it leaves the loop and
exits normally exactly when some poll iteration is not a plain
connected-observation — a disconnect report, a signal interrupt, or an
error raised by the connectivity monitoring. -/
theorem c3_amended_fresh_keepOpen_polls (env : Env) (req : Request) (js ce : String)
    (hr : env.readScript = .ok js) (hc : env.connect = .error ce)
    (hl : env.launchRes = .ok ()) (hg : req.targetUrl = "" ∨ env.gotoErr = none)
    (hk : parseBool req.keepOpen = true) :
    ((run_scan env req).events.count Ev.sleep = (env.pollSteps.takeWhile isConn).length) ∧
    ((run_scan env req).outcome = .polling ↔ ∀ s ∈ env.pollSteps, s = .connected) ∧
    ((run_scan env req).outcome = .normal ↔ ∃ s ∈ env.pollSteps, s ≠ .connected) := by
  have h1 := phase1_fresh_ok env req ce hc hl hg
  have h3 : phase3 env req false
      = (Ev.err (.lifecycle false true) :: Ev.err .keepingOpen :: Ev.err .stayOpen ::
          (runPoll env.pollSteps).1,
         if (runPoll env.pollSteps).2 then .normal else .polling) := by
    simp [phase3, hk]
  have hout : (run_scan env req).outcome
      = (if (runPoll env.pollSteps).2 then Outcome.normal else Outcome.polling) := by
    simp only [run_scan, hr, h1, h3]
  refine ⟨?_, ?_, ?_⟩
  · simp only [run_scan, hr, h1, h3]
    simp [List.count_cons, List.count_append,
      List.count_eq_zero.mpr (sleep_not_in_phase1 env req),
      List.count_eq_zero.mpr (sleep_not_in_phase2 env PageRef.newInLaunched),
      runPoll_count_sleep]
  · rw [hout]
    cases hb : (runPoll env.pollSteps).2 with
    | false =>
      simp only [Bool.false_eq_true, if_false, true_iff, eq_self_iff_true]
      exact (runPoll_still_iff env.pollSteps).mp hb
    | true =>
      simp only [if_true, if_pos]
      constructor
      · intro hcontra
        exact absurd hcontra (by simp)
      · intro hall
        have hfalse := (runPoll_still_iff env.pollSteps).mpr hall
        rw [hb] at hfalse
        exact absurd hfalse (by decide)
  · rw [hout]
    cases hb : (runPoll env.pollSteps).2 with
    | false =>
      simp only [Bool.false_eq_true, if_false]
      constructor
      · intro hcontra
        exact absurd hcontra (by simp)
      · rintro ⟨s, hs, hne⟩
        exact absurd ((runPoll_still_iff env.pollSteps).mp hb s hs) hne
    | true =>
      simp only [if_true, if_pos]
      have hnall : ¬ ∀ s ∈ env.pollSteps, s = PollStep.connected := by
        intro hall
        have hfalse := (runPoll_still_iff env.pollSteps).mpr hall
        rw [hb] at hfalse
        exact absurd hfalse (by decide)
      push_neg at hnall
      simp only [eq_self_iff_true, true_iff]
      exact hnall

/-- Witness for the amended C3: two polls, connected then disconnected —
one sleep, loop left, normal exit. -/
theorem c3_amended_fresh_keepOpen_polls_witness :
    parseBool ({ req0 with keepOpen := "true" } : Request).keepOpen = true ∧
    (((run_scan { env0 with pollSteps := [.connected, .disconnected] }
        { req0 with keepOpen := "true" }).events.count Ev.sleep
      = (({ env0 with pollSteps := [.connected, .disconnected] } : Env).pollSteps.takeWhile
          isConn).length) ∧
    ((run_scan { env0 with pollSteps := [.connected, .disconnected] }
        { req0 with keepOpen := "true" }).outcome = .polling ↔
      ∀ s ∈ ({ env0 with pollSteps := [.connected, .disconnected] } : Env).pollSteps,
        s = .connected) ∧
    ((run_scan { env0 with pollSteps := [.connected, .disconnected] }
        { req0 with keepOpen := "true" }).outcome = .normal ↔
      ∃ s ∈ ({ env0 with pollSteps := [.connected, .disconnected] } : Env).pollSteps,
        s ≠ .connected)) :=
  ⟨by decide,
   c3_amended_fresh_keepOpen_polls
     { env0 with pollSteps := [.connected, .disconnected] }
     { req0 with keepOpen := "true" }
     "scanner code" "connect ECONNREFUSED" rfl rfl rfl (Or.inl rfl) (by decide)⟩

/-- C6.  When script injection or the scan entry-point call raises after a
session is established, the failure is logged to the diagnostic channel,
nothing reaches stdout, the run is not fatal, and the lifecycle finalizer
still runs (its lifecycle line is logged). -/
theorem c6_scan_error_swallowed (env : Env) (req : Request) (p : PageRef) (ex : Bool)
    (e js : String) (hr : env.readScript = .ok js)
    (h1 : (phase1 env req).2 = .ok (p, ex))
    (he : env.injectErr = some e ∨ (env.injectErr = none ∧ env.scanResult = .error e)) :
    Ev.err (.scanFailed e) ∈ (run_scan env req).events ∧
    stdoutTrace (run_scan env req) = [] ∧
    (run_scan env req).outcome ≠ .fatal ∧
    Ev.err (.lifecycle ex (parseBool req.keepOpen)) ∈ (run_scan env req).events := by
  have hmem : Ev.err (.scanFailed e) ∈ phase2 env p := by
    unfold phase2
    rcases he with hi | ⟨hi, hs⟩
    · simp [hi]
    · simp [hi, hs]
  have hfil : List.filter isStdoutEv (phase2 env p) = [] := by
    unfold phase2
    rcases he with hi | ⟨hi, hs⟩
    · simp [hi, isStdoutEv]
    · simp [hi, hs, isStdoutEv]
  refine ⟨?_, ?_, ?_, ?_⟩
  · simp only [run_scan, hr, h1]
    simp [hmem]
  · simp only [stdoutTrace, run_scan, hr, h1]
    simp [List.filter_append, stdout_filter_phase1, hfil, stdout_filter_phase3, isStdoutEv]
  · simp only [run_scan, hr, h1]
    exact phase3_outcome_ne_fatal env req ex
  · simp only [run_scan, hr, h1]
    simp [lifecycle_mem_phase3]

/-- Witness for C6: the entry-point call raises a concrete error. -/
theorem c6_scan_error_swallowed_witness :
    (phase1 { env0 with scanResult := .error "TypeError" } req0).2
        = .ok (.newInLaunched, false) ∧
    Ev.err (.scanFailed "TypeError") ∈
      (run_scan { env0 with scanResult := .error "TypeError" } req0).events :=
  ⟨by decide,
   (c6_scan_error_swallowed { env0 with scanResult := .error "TypeError" } req0
     .newInLaunched false "TypeError" "scanner code" rfl (by decide)
     (Or.inr ⟨rfl, rfl⟩)).1⟩

/-- C7.  When the scan succeeds and serialization succeeds, the primary
output channel carries exactly one write — the pretty-printed JSON array of
the element records — immediately followed by a flush, and nothing else is
ever written to it. -/
theorem c7_stdout_exactly_json (env : Env) (req : Request) (p : PageRef) (ex : Bool)
    (js : String) (elems : List ElementRecord) (hr : env.readScript = .ok js)
    (h1 : (phase1 env req).2 = .ok (p, ex)) (hi : env.injectErr = none)
    (hs : env.scanResult = .ok elems) (hd : env.dumpsOk = true) :
    stdoutTrace (run_scan env req) = [Ev.out (dumps elems), Ev.flush] := by
  have hfil : List.filter isStdoutEv (phase2 env p) = [Ev.out (dumps elems), Ev.flush] := by
    unfold phase2
    simp [hi, hs, hd, isStdoutEv]
  simp only [stdoutTrace, run_scan, hr, h1]
  simp [List.filter_append, stdout_filter_phase1, hfil, stdout_filter_phase3, isStdoutEv]

/-- Witness for C7: one concrete element record. -/
theorem c7_stdout_exactly_json_witness :
    (phase1 { env0 with scanResult := .ok [⟨[("tag", .jstr "div")]⟩] } req0).2
        = .ok (.newInLaunched, false) ∧
    stdoutTrace (run_scan { env0 with scanResult := .ok [⟨[("tag", .jstr "div")]⟩] } req0)
        = [Ev.out (dumps [⟨[("tag", .jstr "div")]⟩]), Ev.flush] :=
  ⟨by decide,
   c7_stdout_exactly_json { env0 with scanResult := .ok [⟨[("tag", .jstr "div")]⟩] } req0
     .newInLaunched false "scanner code" [⟨[("tag", .jstr "div")]⟩]
     rfl (by decide) rfl rfl rfl⟩

/-- C9.  When the scan succeeds but serializing/printing the result raises,
the error is silently swallowed: stdout stays empty, the diagnostic trace is
exactly the one of the same run with a succeeding serialization (so no
message reports the failure), the outcome is unchanged and not fatal, and
the lifecycle finalizer still runs. -/
theorem c9_dump_error_swallowed (env : Env) (req : Request) (p : PageRef) (ex : Bool)
    (js : String) (elems : List ElementRecord) (hr : env.readScript = .ok js)
    (h1 : (phase1 env req).2 = .ok (p, ex)) (hi : env.injectErr = none)
    (hs : env.scanResult = .ok elems) (hd : env.dumpsOk = false) :
    stdoutTrace (run_scan env req) = [] ∧
    stderrTrace (run_scan env req)
      = stderrTrace (run_scan { env with dumpsOk := true } req) ∧
    (run_scan env req).outcome = (run_scan { env with dumpsOk := true } req).outcome ∧
    (run_scan env req).outcome ≠ .fatal ∧
    Ev.err (.lifecycle ex (parseBool req.keepOpen)) ∈ (run_scan env req).events := by
  have h1' : (phase1 { env with dumpsOk := true } req).2 = .ok (p, ex) := h1
  have hfil : List.filter isStdoutEv (phase2 env p) = [] := by
    unfold phase2
    simp [hi, hs, hd, isStdoutEv]
  have herr2 : List.filter isErrEv (phase2 env p)
      = List.filter isErrEv (phase2 { env with dumpsOk := true } p) := by
    unfold phase2
    simp [hi, hs, hd, isErrEv]
  have hr' : ({ env with dumpsOk := true } : Env).readScript = .ok js := hr
  have hres := run_scan_resolved env req p ex js hr h1
  have hres' := run_scan_resolved { env with dumpsOk := true } req p ex js hr' h1'
  have hph1eq : phase1 { env with dumpsOk := true } req = phase1 env req := rfl
  have hph3eq : phase3 { env with dumpsOk := true } req ex = phase3 env req ex := rfl
  refine ⟨?_, ?_, ?_, ?_, ?_⟩
  · simp only [stdoutTrace, run_scan, hr, h1]
    simp [List.filter_append, stdout_filter_phase1, hfil, stdout_filter_phase3, isStdoutEv]
  · rw [stderrTrace, stderrTrace, hres, hres', hph1eq, hph3eq]
    simp [List.filter_append, herr2, isErrEv]
  · rw [hres, hres', hph3eq]
  · simp only [run_scan, hr, h1]
    exact phase3_outcome_ne_fatal env req ex
  · simp only [run_scan, hr, h1]
    simp [lifecycle_mem_phase3]

/-- Witness for C9: serialization raises on a concrete run. -/
theorem c9_dump_error_swallowed_witness :
    (phase1 { env0 with dumpsOk := false } req0).2 = .ok (.newInLaunched, false) ∧
    stdoutTrace (run_scan { env0 with dumpsOk := false } req0) = [] :=
  ⟨by decide,
   (c9_dump_error_swallowed { env0 with dumpsOk := false } req0
     .newInLaunched false "scanner code" [] rfl (by decide) rfl rfl rfl).1⟩

end Runner
